import Mathlib

set_option linter.unusedVariables false

/-!
Shallow embedding of the agent handoff and order-state code of the
`super-version` repository, together with theorems settling the frozen
claims about it.

Sources embedded (translated definition by definition):
- `src/models/order_models.py` (`OrderState`, `from_sync_response`)
- `src/models/product_models.py` (`ProductOption`, `ProductOptionGroup`, `parse_option`)
- `src/agent/tools/implementations.py` (the `*_impl` tool handlers)
- `src/agent/order_task.py` (`OrderTask.sync_order_options`, embedded here
  as `LegacyOrderTask.sync_order_options` to avoid a name clash with the
  agent class of `src/agent/agents/order_task.py`)
- `src/agent/agents/{assistant,order_task,basic_order_task}.py` (the role
  classes, as structures holding the constructor-stored fields)
- `src/agent/state_manager.py` (`PerJobState`, restricted to the fields the
  embedded handlers read or write)

Modelling conventions:
- The LiveKit room is represented by the list of remote participant
  identities; `perform_rpc` outcomes are an explicit `RpcResult` argument
  (either an `RpcError` or the returned response string, where the empty
  string is Python-falsy). Each handler additionally returns the list of
  RPC calls it dispatched (method and payload), so that "no transport call
  was made" is a provable statement.
- `json.loads` on a sync response is an explicit `decode` function
  argument; `datetime.now()` is an explicit `now : Nat` argument.
- Monetary amounts are modelled as integers; none of the claims computes
  with prices beyond copying and defaulting them.
- Python `dict.get(k)` / `dict.get(k, d)` on possibly-absent keys is
  modelled with `Option` fields and `Option.getD`.
- `ProductType` in `src/schemas/products.py` is
  `Literal["basic", "variant", "customizable"]` — a `typing` alias, not an
  enum. Attribute access on the alias (`ProductType.BASIC` and friends)
  raises `AttributeError` and calling it (`ProductType(s)`) raises
  `TypeError`, so every handler that evaluates such an expression fails
  there at runtime. The embedding models these crashes as explicit error
  results (`productTypeAttributeError`, `productTypeCallError`); the
  statements behind them are dead code, described in each handler's doc
  comment rather than embedded.
- The LLM prompt texts built by `_generate_instructions` /
  `build_instructions` are not modelled, except for the fact (load-bearing
  for `complete_order_impl`) that `Assistant.build_instructions`
  dereferences `self.state.base_url` and therefore crashes when the
  constructor was given `state=None`.
-/

namespace SuperVersion

/-- `ProductType` of `src/schemas/products.py`:
`ProductType = Literal["basic", "variant", "customizable"]`. This is a
`typing` alias, not an enum — at runtime a product-type value is a plain
string, and the alias itself is usable only in annotations. We record the
alias by its list of admissible strings. Attribute access on the alias
(`ProductType.BASIC`, `.VARIANT`, `.CUSTOMIZABLE`) raises `AttributeError`,
and calling it (`ProductType(s)`) raises `TypeError`; the handlers of
`src/agent/tools/implementations.py` that evaluate such expressions fail
there (see `productTypeAttributeError` / `productTypeCallError` below). -/
def ProductType : List String := ["basic", "variant", "customizable"]

/-- `ProductOption` of `src/models/product_models.py`. -/
structure ProductOption where
  id : Int
  name : String
  price : Int
  stock : Int
  qty_max : Int
  qty : Int
deriving DecidableEq, Repr

/-- `ProductOptionGroup` of `src/models/product_models.py`; the `options`
list is filled by `add_option`, i.e. ordinary list append. -/
structure ProductOptionGroup where
  id : Int
  name : String
  min_options : Int
  max_options : Int
  options : List ProductOption
deriving DecidableEq, Repr

/-- One option dict of a sync response (`ApiOption` in
`src/models/product_models.py`). `price` stands for the result of
`float(option_data["price"])`: `none` when that parse fails with
`ValueError`/`TypeError`, in which case the code falls back to `0.0`. An
absent `"price"` key would raise an uncaught `KeyError` (`parse_option`
direct-indexes it) and is not modelled; the other keys are read with
`dict.get` and default as `parse_option` shows. -/
structure ApiOption where
  id : Option Int
  option_name : Option String
  price : Option Int
  stock : Option Int
  qty_max : Option Int
deriving DecidableEq, Repr

/-- `parse_option` of `src/models/product_models.py`. -/
def parse_option (option_data : ApiOption) : ProductOption :=
  { id := option_data.id.getD 0
    name := option_data.option_name.getD ""
    price := option_data.price.getD 0
    stock := option_data.stock.getD 0
    qty_max := option_data.qty_max.getD 0
    qty := 0 }

/-- One options group of a sync response (`SyncOptionsGroup` of
`src/schemas/products.py`); these keys are read with direct indexing in
`OrderState.from_sync_response`, hence non-optional here. -/
structure SyncOptionsGroup where
  id : Int
  group_name : String
  min_options : Int
  max_options : Int
  options : List ApiOption
deriving DecidableEq, Repr

/-- A decoded `syncProductOptions` response (`SyncResponse` of
`src/schemas/products.py`). All fields are optional because
`OrderState.from_sync_response` reads each one with `dict.get`. -/
structure SyncResponse where
  product_name : Option String
  currency_code : Option String
  currency_symbol : Option String
  current_quantity : Option Int
  price : Option Int
  options_groups : Option (List SyncOptionsGroup)
deriving DecidableEq, Repr

/-- `OrderState` of `src/models/order_models.py`. `product_name` is an
`Option` because `from_sync_response` assigns `sync_data.get("product_name")`,
which is `None` when the key is absent; `last_sync` is a timestamp or
`None`. -/
structure OrderState where
  product_name : Option String
  total_price : Int
  quantity : Int
  option_groups : List ProductOptionGroup
  currency_code : String
  currency_symbol : String
  last_sync : Option Nat
deriving DecidableEq, Repr

/-- `OrderState.__init__` of `src/models/order_models.py`. -/
def OrderState.init : OrderState :=
  { product_name := some "Product Name"
    total_price := 0
    quantity := 1
    option_groups := []
    currency_code := "USD"
    currency_symbol := "$"
    last_sync := none }

/-- `OrderState.from_sync_response` of `src/models/order_models.py`.
`now` is the value of `datetime.now()`. The Python loop guarded by
`if sync_data.get("options_groups", [])` builds exactly the map below
(an empty or absent list yields no groups either way). -/
def OrderState.from_sync_response (sync_data : SyncResponse) (now : Nat) : OrderState :=
  let state := OrderState.init
  { state with
    product_name := sync_data.product_name
    currency_code := sync_data.currency_code.getD "EUR"
    currency_symbol := sync_data.currency_symbol.getD "€"
    quantity := sync_data.current_quantity.getD 1
    total_price := sync_data.price.getD 0
    last_sync := some now
    option_groups :=
      (sync_data.options_groups.getD []).map (fun group_data =>
        { id := group_data.id
          name := group_data.group_name
          min_options := group_data.min_options
          max_options := group_data.max_options
          options := group_data.options.map parse_option }) }

/-- The dialogue history object (`ChatContext`). The handlers only ever
thread the same reference through; we model it as the list of messages. -/
abbrev ChatCtx := List String

/-- A pending-product record held in `PerJobState.pending_product`: the
dict shape `{"product_id": ..., "product_type": ...}` that the (dead)
assignment in `redirect_to_product_page_impl` would store. Both keys are
read with `dict.get` in `initiate_product_order_impl`, hence `Option`
fields. -/
structure PendingProduct where
  product_id : Option Int
  product_type : Option String
deriving DecidableEq, Repr

/-- `PerJobState` of `src/agent/state_manager.py`, restricted to the fields
the embedded handlers read or write. `pending_product` is not set by
`PerJobState.__init__`; the repository's only assignment to it
(`redirect_to_product_page_impl`, line 110) is dead code behind the
`ProductType` crash, so within this program it stays whatever external
code put there (`none` on a fresh state). -/
structure PerJobState where
  website_name : String
  website_description : String
  preferred_language : String
  currency : String
  base_url : String
  pending_product : Option PendingProduct
deriving DecidableEq, Repr

/-- Python truthiness of `pending.get("product_id")`: falsy when the key is
absent (`None`) or the value is the integer `0`. -/
def pyTruthyInt : Option Int → Bool
  | none => false
  | some n => !(n == 0)

/-- Python truthiness of `pending.get("product_type")`: falsy when the key
is absent (`None`) or the value is the empty string. -/
def pyTruthyStr : Option String → Bool
  | none => false
  | some s => !(s == "")

/-- A payload sent over `perform_rpc`, one constructor per payload shape
built in `src/agent/tools/implementations.py`. -/
inductive RpcPayload
  | redirect (url : String)
  | emptyObj
  | quantity (product_type : String)
  | toggle (group_id : Int) (option_id : Int) (action : String) (product_type : String)
deriving DecidableEq, Repr

/-- One dispatched `perform_rpc` call: destination method and payload.
Each handler returns the list of calls it made, so "zero transport calls"
is the statement that this list is empty. -/
structure RpcCall where
  method : String
  payload : RpcPayload
deriving DecidableEq, Repr

/-- The outcome `perform_rpc` would produce if invoked: either it raises
`RpcError`, or it returns a response string (the empty string being the
Python-falsy "empty response"). -/
inductive RpcResult
  | failed
  | response (s : String)
deriving DecidableEq, Repr

/-- A failure surfacing from a tool handler: a deliberate `ToolError`, or
an uncaught Python exception escaping the handler (`AttributeError`,
`TypeError` from the `ProductType` alias). -/
inductive ToolFailure
  | toolError (msg : String)
  | attributeError (msg : String)
  | typeError (msg : String)
deriving DecidableEq, Repr

/-- The uncaught `AttributeError` raised by evaluating a member access such
as `ProductType.VARIANT` or `ProductType.BASIC` on the `typing.Literal`
alias. -/
def productTypeAttributeError : ToolFailure :=
  ToolFailure.attributeError "ProductType is a typing.Literal alias and has no members"

/-- The uncaught `TypeError` raised by calling the `typing.Literal` alias,
`ProductType(product_type_str)`; the source's `except ValueError` does not
catch it. -/
def productTypeCallError : ToolFailure :=
  ToolFailure.typeError "Cannot instantiate typing.Literal"


/-- The `Assistant` role of `src/agent/agents/assistant.py`: the
constructor stores `state` and the dialogue history it was given. -/
structure Assistant where
  chat_ctx : ChatCtx
  state : PerJobState
deriving DecidableEq, Repr

/-- `Assistant.__init__(chat_ctx=None, state=None)`. Before calling the
superclass it evaluates `self.build_instructions()`, which dereferences
`self.state.base_url` (and more fields of `self.state`); with `state=None`
this raises `AttributeError`, so construction only succeeds when a state is
passed. -/
def Assistant.make (chat_ctx : ChatCtx) (state : Option PerJobState) : Option Assistant :=
  match state with
  | none => none
  | some s => some { chat_ctx := chat_ctx, state := s }

/-- The `BasicOrderTask` role of `src/agent/agents/basic_order_task.py`:
the fields its constructor stores. The generated instruction text is not
modelled. -/
structure BasicOrderTask where
  product_name : String
  product_details_summary : String
  chat_ctx : ChatCtx
  product_type : String
  website_name : String
  website_description : String
  preferred_language : String
  state : PerJobState
deriving DecidableEq, Repr

/-- The full `OrderTask` role of `src/agent/agents/order_task.py`: the
fields its constructor stores. The generated instruction text is not
modelled. -/
structure OrderTask where
  product_name : String
  product_details_summary : String
  chat_ctx : ChatCtx
  product_type : String
  website_name : String
  website_description : String
  preferred_language : String
  state : PerJobState
deriving DecidableEq, Repr

/-- The order role returned by `initiate_product_order_impl`: either the
`BasicOrderTask` or the full `OrderTask`. -/
inductive OrderRole
  | basicOrder (t : BasicOrderTask)
  | fullOrder (t : OrderTask)
deriving DecidableEq, Repr

/-- The dialogue history held by an order role. -/
def OrderRole.chat_ctx : OrderRole → ChatCtx
  | .basicOrder t => t.chat_ctx
  | .fullOrder t => t.chat_ctx

/-- Whether an order role is the `BasicOrderTask`. -/
def OrderRole.isBasic : OrderRole → Bool
  | .basicOrder _ => true
  | .fullOrder _ => false

/-- A product-detail dict as returned by the
`get_*_product_detail` collaborators of `src/devaito/services/products.py`;
only `product_name` is read by `initiate_product_order_impl`
(via `product_details.get("product_name", "Product")`). -/
structure ProductDetail where
  product_name : Option String
deriving DecidableEq, Repr

/-- One detail-fetch performed by `initiate_product_order_impl`: which
typed fetcher (`"basic"`, `"variant"`, `"customizable"`) was invoked, with
which tenant and product id. In this program no fetch ever happens (the
line-142 `TypeError` precedes them all); the type remains as the trace
element type. -/
structure FetchCall where
  kind : String
  tenant_id : String
  product_id : Int
deriving DecidableEq, Repr

/-- The success dict of `redirect_to_website_page_impl`. -/
structure RedirectPageResult where
  success : Bool
  redirected_to : String
deriving DecidableEq, Repr

/-- The success dict of `redirect_to_product_page_impl`. -/
structure RedirectProductResult where
  success : Bool
  redirected_to : String
  message : String
deriving DecidableEq, Repr

/-- The success triple of `initiate_product_order_impl`:
`(order_task, product_name, message)`. -/
structure InitiateResult where
  task : OrderRole
  product_name : String
  message : String
deriving DecidableEq, Repr

/-- The `{"message": response}` dict returned by the quantity tools. -/
structure MessageResult where
  message : String
deriving DecidableEq, Repr

/-- The `{"message": ..., "group_id": ..., "option_id": ...}` dict returned
by `select_option_impl` / `unselect_option_impl`. -/
structure ToggleResult where
  message : String
  group_id : Int
  option_id : Int
deriving DecidableEq, Repr

/-- The dict returned by a sync tool: either
`{"success": False, "error": ...}` or `{"success": True, "summary": ...}`.
We carry the freshly built `OrderState` the summary string is rendered
from; the rendering (`to_summary`) is display-only and not modelled. -/
inductive SyncToolResult
  | failure (error : String)
  | success (current_order : OrderState)
deriving DecidableEq, Repr

/-- `redirect_to_website_page_impl` of `src/agent/tools/implementations.py`.
Its body never reads or writes `PerJobState`; the state is threaded through
unchanged to make that frame condition a provable statement. -/
def redirect_to_website_page_impl (state : PerJobState) (redirect_url : String)
    (participants : List String) (rpc : RpcResult) :
    (Except ToolFailure RedirectPageResult × PerJobState) × List RpcCall :=
  if participants.isEmpty then
    ((Except.error (ToolFailure.toolError "No participants to redirect"), state), [])
  else
    let calls := [⟨"redirectToPage", RpcPayload.redirect redirect_url⟩]
    match rpc with
    | .failed =>
        ((Except.error (ToolFailure.toolError "Failed to redirect to page"), state), calls)
    | .response _ =>
        ((Except.ok { success := true, redirected_to := redirect_url }, state), calls)

/-- `redirect_to_product_page_impl` of `src/agent/tools/implementations.py`.
Its first statement is the "validate product_type early" membership test
against `{ProductType.BASIC, ProductType.VARIANT, ProductType.CUSTOMIZABLE}`
(lines 84-89); `ProductType` is the `typing.Literal` alias, so evaluating
`ProductType.BASIC` raises `AttributeError` on every call — before the
no-peer check, the `redirectToPage` RPC and the `pending_product`
assignment (line 110, the repository's only write to it), all of which are
therefore dead code. The handler never reaches a transport call and never
touches the session state. -/
def redirect_to_product_page_impl (state : PerJobState) (redirect_url : String)
    (product_id : Int) (product_type : String)
    (participants : List String) (rpc : RpcResult) :
    (Except ToolFailure RedirectProductResult × PerJobState) × List RpcCall :=
  ((Except.error productTypeAttributeError, state), [])

/-- `initiate_product_order_impl` of `src/agent/tools/implementations.py`.
The pending-product gates (lines 128-139) are embedded exactly: a missing
pending record, or a Python-falsy `product_id`/`product_type`, raises a
`ToolError` before anything else. Past the gates, line 142 calls
`ProductType(product_type_str)` on the `typing.Literal` alias, raising a
`TypeError` that the surrounding `except ValueError` does not catch — so
the `generate_reply` announcement, the detail fetch, the formatting and
the Order Task construction (lines 146-214) are dead code. The fetcher and
formatter collaborators (of `src/devaito/services/products.py` and
`src/utils/tools.py`) stay in the signature to mirror the call shape but
are never invoked; the returned `List FetchCall` records the detail
fetches performed — always none. The handler never writes to `state`; the
state is threaded through unchanged. -/
def initiate_product_order_impl
    (chat_ctx : ChatCtx) (state : PerJobState)
    (get_basic_single_product_detail : String → Int → Except Unit ProductDetail)
    (get_basic_variant_product_detail : String → Int → Except Unit ProductDetail)
    (get_customizable_product_detail : String → Int → Except Unit ProductDetail)
    (format_basic_single_product_for_llm : ProductDetail → String → String)
    (format_basic_variant_product_for_llm : ProductDetail → String → String)
    (format_customizable_product_for_llm : ProductDetail → String → String) :
    (Except ToolFailure InitiateResult × PerJobState) × List FetchCall :=
  match state.pending_product with
  | none =>
      ((Except.error (ToolFailure.toolError
          "No pending product found. User must be redirected to a product page first."),
        state), [])
  | some pending =>
      let product_id := pending.product_id
      let product_type_str := pending.product_type
      if !(pyTruthyInt product_id) || !(pyTruthyStr product_type_str) then
        ((Except.error (ToolFailure.toolError "Incomplete pending product data"), state), [])
      else
        -- line 142: `ProductType(product_type_str)` calls the typing.Literal
        -- alias and raises TypeError; `except ValueError` does not catch it,
        -- so everything from the reply announcement to the task construction
        -- (lines 146-214) never runs
        ((Except.error productTypeCallError, state), [])

/-- `sync_order_options_impl` of `src/agent/tools/implementations.py`.
No peer raises a `ToolError`; a raised `RpcError` is wrapped into a
`ToolError`; an empty response string returns (not raises) the failure
dict; otherwise the response is decoded (`json.loads`, here the `decode`
argument) and a fresh `OrderState` is built from it. The Python return
value carries `current_order.to_summary()`; we carry the `OrderState` the
summary is rendered from. -/
def sync_order_options_impl (participants : List String) (rpc : RpcResult)
    (decode : String → SyncResponse) (now : Nat) :
    Except ToolFailure SyncToolResult × List RpcCall :=
  if participants.isEmpty then
    (Except.error (ToolFailure.toolError "No participants to redirect"), [])
  else
    let calls := [⟨"syncProductOptions", RpcPayload.emptyObj⟩]
    match rpc with
    | .failed =>
        (Except.error (ToolFailure.toolError "Failed to sync order options"), calls)
    | .response s =>
        if s = "" then
          (Except.ok (SyncToolResult.failure "Empty RPC response"), calls)
        else
          (Except.ok (SyncToolResult.success (OrderState.from_sync_response (decode s) now)),
            calls)

/-- `increase_product_quantity_impl` of `src/agent/tools/implementations.py`.
After the no-peer gate, the `perform_rpc` arguments are evaluated: the
payload expression `"basic" if product_type == ProductType.VARIANT else
product_type` (line 261) reads `ProductType.VARIANT` on the
`typing.Literal` alias and raises `AttributeError` — while the arguments
are built, before any dispatch, inside a `try` that only catches
`RpcError` — so the RPC, the empty-response check and the message return
are dead code: the handler dispatches nothing for every product type. -/
def increase_product_quantity_impl (product_type : String)
    (participants : List String) (rpc : RpcResult) :
    Except ToolFailure MessageResult × List RpcCall :=
  if participants.isEmpty then
    (Except.error (ToolFailure.toolError "No participants is present"), [])
  else
    (Except.error productTypeAttributeError, [])

/-- `decrease_product_quantity_impl` of `src/agent/tools/implementations.py`.
Identical to the increase tool: after the no-peer gate, building the
payload reads `ProductType.VARIANT` on the `typing.Literal` alias
(line 296) and raises `AttributeError` before any dispatch; `except
RpcError` does not catch it. The handler dispatches nothing and, a
fortiori, never touches any `OrderState`. -/
def decrease_product_quantity_impl (product_type : String)
    (participants : List String) (rpc : RpcResult) :
    Except ToolFailure MessageResult × List RpcCall :=
  if participants.isEmpty then
    (Except.error (ToolFailure.toolError "No participants is present"), [])
  else
    (Except.error productTypeAttributeError, [])

/-- `select_option_impl` of `src/agent/tools/implementations.py`.
After the no-peer gate, the payload is built before the `try` (lines
326-335) and its `product_type` expression reads `ProductType.VARIANT` on
the `typing.Literal` alias (line 332): `AttributeError`, raised before
`perform_rpc`, uncaught. The toggle RPC never occurs. -/
def select_option_impl (product_type : String) (group_id : Int) (option_id : Int)
    (participants : List String) (rpc : RpcResult) :
    Except ToolFailure ToggleResult × List RpcCall :=
  if participants.isEmpty then
    (Except.error (ToolFailure.toolError "No participants is present"), [])
  else
    (Except.error productTypeAttributeError, [])

/-- `unselect_option_impl` of `src/agent/tools/implementations.py`.
The only option/quantity tool without a `ProductType` member access: its
payload carries the call's `product_type` value (a plain string at
runtime) unchanged (line 367), and the RPC is actually dispatched. -/
def unselect_option_impl (product_type : String) (group_id : Int) (option_id : Int)
    (participants : List String) (rpc : RpcResult) :
    Except ToolFailure ToggleResult × List RpcCall :=
  if participants.isEmpty then
    (Except.error (ToolFailure.toolError "No participants is present"), [])
  else
    let payload := RpcPayload.toggle group_id option_id "unselect" product_type
    let calls := [⟨"toggleOptionSelection", payload⟩]
    match rpc with
    | .failed =>
        (Except.error (ToolFailure.toolError "Failed to unselect option"), calls)
    | .response s =>
        if s = "" then
          (Except.error (ToolFailure.toolError "Failed to unselect option"), calls)
        else
          (Except.ok { message := s, group_id := group_id, option_id := option_id }, calls)

/-- `complete_order_impl` of `src/agent/tools/implementations.py`.
After the no-peer gate, the whole body sits in a `try` whose
`except Exception` re-raises everything — the `RpcError`, the inner
`ToolError("Failed to add item to cart")` on an empty response, and any
constructor crash — as
`ToolError("An error occurred while attempting to add the item to cart")`.
On a non-empty response the code builds `Assistant(chat_ctx=chat_ctx)`
without passing `state`, so `Assistant.make` receives `none`. -/
def complete_order_impl (chat_ctx : ChatCtx) (product_name : String)
    (participants : List String) (rpc : RpcResult) :
    Except ToolFailure (Assistant × String) × List RpcCall :=
  if participants.isEmpty then
    (Except.error (ToolFailure.toolError "No participants available"), [])
  else
    let calls := [⟨"addToCart", RpcPayload.emptyObj⟩]
    match rpc with
    | .failed =>
        (Except.error (ToolFailure.toolError
          "An error occurred while attempting to add the item to cart"), calls)
    | .response s =>
        if s = "" then
          (Except.error (ToolFailure.toolError
            "An error occurred while attempting to add the item to cart"), calls)
        else
          match Assistant.make chat_ctx none with
          | none =>
              (Except.error (ToolFailure.toolError
                "An error occurred while attempting to add the item to cart"), calls)
          | some assistant =>
              (Except.ok (assistant,
                "the order has been successfully completed for " ++ product_name ++ ","),
                calls)

/-- `exit_ordering_task_impl` of `src/agent/tools/implementations.py`:
builds `Assistant(chat_ctx=chat_ctx, state=state)` and a cancellation
message (the "fot" typo is the source's). -/
def exit_ordering_task_impl (chat_ctx : ChatCtx) (product_name : String)
    (exist_reason : String) (state : PerJobState) : Option Assistant × String :=
  (Assistant.make chat_ctx (some state),
   "User exited customization for " ++ product_name
     ++ ", reason fot the user's exit " ++ exist_reason)

namespace LegacyOrderTask

/-- `OrderTask.sync_order_options` of `src/agent/order_task.py` (the
`AgentTask` variant, which stores the synced projection in
`self.current_order`). With no peer or an empty response it returns a
failure dict and leaves `current_order` unchanged; a raised `RpcError` is
not caught there and propagates (`Except.error ()`); otherwise
`current_order` is replaced wholesale by an `OrderState` built from the
decoded response. -/
def sync_order_options (current_order : Option OrderState)
    (participants : List String) (rpc : RpcResult)
    (decode : String → SyncResponse) (now : Nat) :
    Option OrderState × Except Unit SyncToolResult × List RpcCall :=
  if participants.isEmpty then
    (current_order, Except.ok (SyncToolResult.failure "No participants to redirect"), [])
  else
    let calls := [⟨"syncProductOptions", RpcPayload.emptyObj⟩]
    match rpc with
    | .failed => (current_order, Except.error (), calls)
    | .response s =>
        if s = "" then
          (current_order, Except.ok (SyncToolResult.failure "Empty RPC response"), calls)
        else
          let new_order := OrderState.from_sync_response (decode s) now
          (some new_order, Except.ok (SyncToolResult.success new_order), calls)

end LegacyOrderTask

/-! Concrete inputs used by witnesses and counterexamples. These embed no
source code; they are sample sessions, responses and collaborator stubs on
which the handlers are evaluated. -/

/-- Sample session state with a given pending product. -/
def sampleState (pending : Option PendingProduct) : PerJobState :=
  { website_name := "shop"
    website_description := "a demo shop"
    preferred_language := "en"
    currency := "USD"
    base_url := "https://shop.example"
    pending_product := pending }

/-- Sample pending-product record for a basic product with id 7. -/
def samplePendingBasic : PendingProduct := { product_id := some 7, product_type := some "basic" }

/-- Sample pending-product record for a variant product with id 9. -/
def samplePendingVariant : PendingProduct :=
  { product_id := some 9, product_type := some "variant" }

/-- Sample product detail returned by the stub fetchers. -/
def sampleDetail : ProductDetail := { product_name := some "Burger" }

/-- Stub detail fetcher that always succeeds with `sampleDetail`. -/
def sampleFetch : String → Int → Except Unit ProductDetail :=
  fun _ _ => Except.ok sampleDetail

/-- Stub formatter standing in for `format_basic_single_product_for_llm`. -/
def sampleFmtB : ProductDetail → String → String :=
  fun d c => "B:" ++ d.product_name.getD "" ++ c

/-- Stub formatter standing in for `format_basic_variant_product_for_llm`. -/
def sampleFmtV : ProductDetail → String → String :=
  fun d c => "V:" ++ d.product_name.getD "" ++ c

/-- Stub formatter standing in for `format_customizable_product_for_llm`. -/
def sampleFmtC : ProductDetail → String → String :=
  fun d c => "C:" ++ d.product_name.getD "" ++ c

/-- Sample sync response with every field present. -/
def sampleSyncFull : SyncResponse :=
  { product_name := some "Burger"
    currency_code := some "JPY"
    currency_symbol := some "Y"
    current_quantity := some 2
    price := some 500
    options_groups := none }

/-- Sample sync response with every field absent. -/
def sampleSyncEmpty : SyncResponse :=
  { product_name := none
    currency_code := none
    currency_symbol := none
    current_quantity := none
    price := none
    options_groups := none }

/-- Stub `json.loads`: response string `"r1"` decodes to `sampleSyncFull`,
anything else to `sampleSyncEmpty`. -/
def sampleDecode : String → SyncResponse :=
  fun s => if s = "r1" then sampleSyncFull else sampleSyncEmpty

/-- Sample sync response whose `current_quantity` is `0` (what an untrusted
peer may report). -/
def sampleSyncZeroQty : SyncResponse :=
  { product_name := some "Pepsi"
    currency_code := some "USD"
    currency_symbol := some "$"
    current_quantity := some 0
    price := some 3
    options_groups := none }

/-! Claims. -/

/-- Claim C10 (confirmed). `OrderState.from_sync_response` substitutes the
fixed defaults for absent fields: missing `currency_code` yields `"EUR"`,
missing `currency_symbol` yields `"€"`, missing `current_quantity` yields
`1`, missing `price` yields `0`, a missing or empty `options_groups` list
yields no option groups, and `last_sync` is always the parse time, never
`None`. -/
theorem C10_sync_defaults (d : SyncResponse) (now : Nat) :
    (d.currency_code = none → (OrderState.from_sync_response d now).currency_code = "EUR")
    ∧ (d.currency_symbol = none → (OrderState.from_sync_response d now).currency_symbol = "€")
    ∧ (d.current_quantity = none → (OrderState.from_sync_response d now).quantity = 1)
    ∧ (d.price = none → (OrderState.from_sync_response d now).total_price = 0)
    ∧ ((d.options_groups = none ∨ d.options_groups = some []) →
        (OrderState.from_sync_response d now).option_groups = [])
    ∧ (OrderState.from_sync_response d now).last_sync = some now := by
  refine ⟨fun h => ?_, fun h => ?_, fun h => ?_, fun h => ?_, fun h => ?_, ?_⟩
  · simp [OrderState.from_sync_response, h]
  · simp [OrderState.from_sync_response, h]
  · simp [OrderState.from_sync_response, h]
  · simp [OrderState.from_sync_response, h]
  · rcases h with h | h <;> simp [OrderState.from_sync_response, h]
  · simp [OrderState.from_sync_response]

/-- Witness for C10: evaluation on a sync response with every field
absent. -/
theorem C10_sync_defaults_witness :
    (OrderState.from_sync_response sampleSyncEmpty 5).currency_code = "EUR"
    ∧ (OrderState.from_sync_response sampleSyncEmpty 5).currency_symbol = "€"
    ∧ (OrderState.from_sync_response sampleSyncEmpty 5).quantity = 1
    ∧ (OrderState.from_sync_response sampleSyncEmpty 5).total_price = 0
    ∧ (OrderState.from_sync_response sampleSyncEmpty 5).option_groups = []
    ∧ (OrderState.from_sync_response sampleSyncEmpty 5).last_sync = some 5 := by
  have h := C10_sync_defaults sampleSyncEmpty 5
  exact ⟨h.1 rfl, h.2.1 rfl, h.2.2.1 rfl, h.2.2.2.1 rfl, h.2.2.2.2.1 (Or.inl rfl),
    h.2.2.2.2.2⟩

/-- Counterexample to claim C9 as stated: the quantity floor does not hold
server-side. A `decrease_product_quantity_impl` call with a peer attached
dispatches nothing at all (the `ProductType.VARIANT` member access raises
`AttributeError` before `perform_rpc`), so decreases place no server-side
bound; and a sync whose response reports `current_quantity = 0` leaves
`OrderState.quantity = 0 < 1`. Nothing in this code keeps the quantity at
or above 1. -/
theorem C9_counterexample :
    (decrease_product_quantity_impl "basic" ["user"] (RpcResult.response "ok")).2 = []
    ∧ (OrderState.from_sync_response sampleSyncZeroQty 7).quantity = 0
    ∧ ¬(1 ≤ (OrderState.from_sync_response sampleSyncZeroQty 7).quantity) := by
  refine ⟨rfl, rfl, by decide⟩

/-- Claim C9 (amended). The server code imposes no quantity floor:
`decrease_product_quantity_impl` never dispatches any RPC (with a peer
attached it raises the `ProductType` `AttributeError` while building the
payload, before any dispatch), and `OrderState.quantity` after a sync
equals exactly the response's `current_quantity` (1 only when the field is
absent). A floor of 1 can hold only if the remote peer enforces it; a
response reporting 0 yields 0. -/
theorem C9_no_server_floor (product_type : String) (ps : List String)
    (rpc : RpcResult) (d : SyncResponse) (now : Nat) :
    (decrease_product_quantity_impl product_type ps rpc).2 = []
    ∧ (ps ≠ [] → (decrease_product_quantity_impl product_type ps rpc).1
        = Except.error productTypeAttributeError)
    ∧ (OrderState.from_sync_response d now).quantity = d.current_quantity.getD 1 := by
  refine ⟨?_, ?_, ?_⟩
  · cases ps <;> rfl
  · intro h
    cases ps with
    | nil => exact absurd rfl h
    | cons a l => rfl
  · simp [OrderState.from_sync_response]

/-- Witness for C9 (amended): evaluation at a variant product with one
peer, and at a sync response carrying `current_quantity = 4`. -/
theorem C9_no_server_floor_witness :
    (decrease_product_quantity_impl "variant" ["user"] (RpcResult.response "ok")).2 = []
    ∧ (decrease_product_quantity_impl "variant" ["user"] (RpcResult.response "ok")).1
      = Except.error productTypeAttributeError
    ∧ (OrderState.from_sync_response
        { sampleSyncEmpty with current_quantity := some 4 } 1).quantity = 4 := by
  have h := C9_no_server_floor "variant" ["user"] (RpcResult.response "ok")
    { sampleSyncEmpty with current_quantity := some 4 } 1
  exact ⟨h.1, h.2.1 (by decide), by simpa using h.2.2⟩

/-- Counterexample to claim C1 as stated: the claim says the payload sent
by `increase_product_quantity_impl` carries exactly the product type the
Order Task was entered with. For a variant product with one peer attached
and a responsive peer, the call sends no payload at all: evaluating
`product_type == ProductType.VARIANT` (line 261) on the `typing.Literal`
alias raises `AttributeError` before `perform_rpc`, so the type is not
threaded through this tool call in any form. -/
theorem C1_counterexample :
    (increase_product_quantity_impl "variant" ["user"] (RpcResult.response "ok")).2 = []
    ∧ (increase_product_quantity_impl "variant" ["user"] (RpcResult.response "ok")).1
      = Except.error productTypeAttributeError := ⟨rfl, rfl⟩

/-- Claim C1 (amended). With a peer attached, `increase_product_quantity_impl`,
`decrease_product_quantity_impl` and `select_option_impl` dispatch no
payload whatever the product type: each raises the `ProductType`
`AttributeError` while building its payload, before `perform_rpc`. Only
`unselect_option_impl` dispatches a payload, and that payload carries the
product type the Order Task was entered with, unmodified. -/
theorem C1_payload_threading (product_type : String) (ps : List String)
    (rpc : RpcResult) (group_id option_id : Int) (h : ps ≠ []) :
    (increase_product_quantity_impl product_type ps rpc).1
      = Except.error productTypeAttributeError
    ∧ (increase_product_quantity_impl product_type ps rpc).2 = []
    ∧ (decrease_product_quantity_impl product_type ps rpc).1
      = Except.error productTypeAttributeError
    ∧ (decrease_product_quantity_impl product_type ps rpc).2 = []
    ∧ (select_option_impl product_type group_id option_id ps rpc).1
      = Except.error productTypeAttributeError
    ∧ (select_option_impl product_type group_id option_id ps rpc).2 = []
    ∧ (unselect_option_impl product_type group_id option_id ps rpc).2
      = [⟨"toggleOptionSelection",
          RpcPayload.toggle group_id option_id "unselect" product_type⟩] := by
  cases ps with
  | nil => exact absurd rfl h
  | cons a l =>
      refine ⟨rfl, rfl, rfl, rfl, rfl, rfl, ?_⟩
      cases rpc with
      | failed => rfl
      | response s => by_cases hs : s = "" <;> simp [unselect_option_impl, hs]

/-- Witness for C1 (amended): evaluation at a variant product with one
peer. -/
theorem C1_payload_threading_witness :
    (increase_product_quantity_impl "variant" ["user"] (RpcResult.response "ok")).1
      = Except.error productTypeAttributeError
    ∧ (increase_product_quantity_impl "variant" ["user"] (RpcResult.response "ok")).2 = []
    ∧ (decrease_product_quantity_impl "variant" ["user"] (RpcResult.response "ok")).1
      = Except.error productTypeAttributeError
    ∧ (decrease_product_quantity_impl "variant" ["user"] (RpcResult.response "ok")).2 = []
    ∧ (select_option_impl "variant" 3 15 ["user"] (RpcResult.response "ok")).1
      = Except.error productTypeAttributeError
    ∧ (select_option_impl "variant" 3 15 ["user"] (RpcResult.response "ok")).2 = []
    ∧ (unselect_option_impl "variant" 3 15 ["user"] (RpcResult.response "ok")).2
      = [⟨"toggleOptionSelection", RpcPayload.toggle 3 15 "unselect" "variant"⟩] :=
  C1_payload_threading "variant" ["user"] (RpcResult.response "ok") 3 15 (by decide)

/-- Counterexample to claim C7 as stated: with zero remote participants,
`redirect_to_product_page_impl` does not fail with the no-peer `ToolError`
— it raises the `AttributeError` from the `ProductType` member set
(line 85), which is evaluated before the participant check. It does still
make zero transport calls. -/
theorem C7_counterexample :
    (redirect_to_product_page_impl (sampleState none) "https://shop.example/burger" 7
        "basic" [] (RpcResult.response "ok")).1.1
      = Except.error productTypeAttributeError
    ∧ productTypeAttributeError ≠ ToolFailure.toolError "No participants to redirect"
    ∧ (redirect_to_product_page_impl (sampleState none) "https://shop.example/burger" 7
        "basic" [] (RpcResult.response "ok")).2 = [] := by
  refine ⟨rfl, by decide, rfl⟩

/-- Claim C7 (amended). With zero remote participants, seven of the eight
RPC-backed tools — `sync_order_options_impl`, the two quantity tools,
`select_option_impl`, `unselect_option_impl`, `complete_order_impl` and
`redirect_to_website_page_impl` — fail immediately with their no-peer
`ToolError` and dispatch zero transport calls. `redirect_to_product_page_impl`
also dispatches zero transport calls, but fails with the `ProductType`
`AttributeError`, raised before the participant check, on every call with
or without peers — never with a no-peer error. -/
theorem C7_no_peer_short_circuit (state : PerJobState) (url url2 : String)
    (pid : Int) (pt : String) (gid oid : Int) (rpc : RpcResult) (ps : List String)
    (decode : String → SyncResponse) (now : Nat) (chat_ctx : ChatCtx) (pn : String) :
    sync_order_options_impl [] rpc decode now
      = (Except.error (ToolFailure.toolError "No participants to redirect"), [])
    ∧ increase_product_quantity_impl pt [] rpc
      = (Except.error (ToolFailure.toolError "No participants is present"), [])
    ∧ decrease_product_quantity_impl pt [] rpc
      = (Except.error (ToolFailure.toolError "No participants is present"), [])
    ∧ select_option_impl pt gid oid [] rpc
      = (Except.error (ToolFailure.toolError "No participants is present"), [])
    ∧ unselect_option_impl pt gid oid [] rpc
      = (Except.error (ToolFailure.toolError "No participants is present"), [])
    ∧ complete_order_impl chat_ctx pn [] rpc
      = (Except.error (ToolFailure.toolError "No participants available"), [])
    ∧ redirect_to_website_page_impl state url2 [] rpc
      = ((Except.error (ToolFailure.toolError "No participants to redirect"), state), [])
    ∧ redirect_to_product_page_impl state url pid pt ps rpc
      = ((Except.error productTypeAttributeError, state), []) := by
  exact ⟨rfl, rfl, rfl, rfl, rfl, rfl, rfl, rfl⟩

/-- Claim C4: the code diverges from it. `complete_order_impl` indeed reads
no cached `OrderState` (no such input exists in its signature) and treats
an empty `addToCart` response as a failure — but on a NON-empty response
the handoff also fails: the code constructs `Assistant(chat_ctx=chat_ctx)`
without passing `state`, `Assistant.build_instructions` dereferences
`self.state.base_url` on `None`, and the resulting `AttributeError` is
converted by the surrounding `except Exception` into
`ToolError("An error occurred while attempting to add the item to cart")`.
Control therefore never returns to the Discovery Assistant; evaluation at
the failing input (one peer, response `"added to cart"`): -/
theorem C4_complete_order_bug :
    complete_order_impl [] "Burger" ["user"] (RpcResult.response "added to cart")
      = (Except.error (ToolFailure.toolError
          "An error occurred while attempting to add the item to cart"),
         [⟨"addToCart", RpcPayload.emptyObj⟩])
    ∧ complete_order_impl [] "Burger" ["user"] (RpcResult.response "")
      = (Except.error (ToolFailure.toolError
          "An error occurred while attempting to add the item to cart"),
         [⟨"addToCart", RpcPayload.emptyObj⟩]) := by
  exact ⟨rfl, rfl⟩

/-- Claim C3 (confirmed). If no pending product is set, or the pending
record lacks (or holds a Python-falsy) `product_id` or `product_type`,
`initiate_product_order_impl` fails with a missing-pending-product
`ToolError` and performs no product-detail fetch. -/
theorem C3_pending_gate (chat_ctx : ChatCtx) (state : PerJobState)
    (gb gv gc : String → Int → Except Unit ProductDetail)
    (fb fv fc : ProductDetail → String → String)
    (h : state.pending_product = none
        ∨ ∃ p, state.pending_product = some p
            ∧ (pyTruthyInt p.product_id = false ∨ pyTruthyStr p.product_type = false)) :
    (∃ msg, (initiate_product_order_impl chat_ctx state gb gv gc fb fv fc).1.1
        = Except.error (ToolFailure.toolError msg))
    ∧ (initiate_product_order_impl chat_ctx state gb gv gc fb fv fc).2 = [] := by
  rcases h with h | ⟨p, hp, hfalsy⟩
  · exact ⟨⟨"No pending product found. User must be redirected to a product page first.",
      by simp [initiate_product_order_impl, h]⟩,
      by simp [initiate_product_order_impl, h]⟩
  · have hc : (!(pyTruthyInt p.product_id) || !(pyTruthyStr p.product_type)) = true := by
      rcases hfalsy with hf | hf <;> simp [hf]
    exact ⟨⟨"Incomplete pending product data",
      by simp [initiate_product_order_impl, hp, hc]⟩,
      by simp [initiate_product_order_impl, hp, hc]⟩

/-- Witness for C3: evaluation on a session with no pending product. -/
theorem C3_pending_gate_witness :
    (∃ msg, (initiate_product_order_impl [] (sampleState none) sampleFetch sampleFetch
        sampleFetch sampleFmtB sampleFmtV sampleFmtC).1.1
      = Except.error (ToolFailure.toolError msg))
    ∧ (initiate_product_order_impl [] (sampleState none) sampleFetch sampleFetch
        sampleFetch sampleFmtB sampleFmtV sampleFmtC).2 = [] :=
  C3_pending_gate [] (sampleState none) sampleFetch sampleFetch sampleFetch
    sampleFmtB sampleFmtV sampleFmtC (Or.inl rfl)

/-- Counterexample to claim C5 as stated: `pending_product` is never set by
any navigation. With one peer attached and a peer that would acknowledge
the `redirectToPage` RPC, `redirect_to_product_page_impl` evaluates the
`{ProductType.BASIC, ...}` member set first (line 85), raises
`AttributeError`, dispatches no RPC and leaves the session state (still
with `pending_product = none`) unchanged — so no product-page navigation
ever sets `pending_product`, contradicting the claimed side effect; and
since line 110 is the repository's only write to `pending_product`, nothing
ever clears it either. -/
theorem C5_counterexample :
    (redirect_to_product_page_impl (sampleState none) "https://shop.example/burger" 7
        "basic" ["user"] (RpcResult.response "ok")).1.2 = sampleState none
    ∧ (sampleState none).pending_product = none
    ∧ (redirect_to_product_page_impl (sampleState none) "https://shop.example/burger" 7
        "basic" ["user"] (RpcResult.response "ok")).1.1
      = Except.error productTypeAttributeError
    ∧ (redirect_to_product_page_impl (sampleState none) "https://shop.example/burger" 7
        "basic" ["user"] (RpcResult.response "ok")).2 = [] := ⟨rfl, rfl, rfl, rfl⟩

/-- Claim C5 (amended). `pending_product` has no lifecycle in this program:
`redirect_to_product_page_impl` — the owner of the repository's only write
to it (line 110) — raises the `ProductType` `AttributeError` on every call
before the no-peer check, the RPC and the assignment, leaving the session
state untouched; `redirect_to_website_page_impl` never touches the session
state; and `initiate_product_order_impl` leaves the state unchanged in
every branch, so nothing ever sets or clears `pending_product`. -/
theorem C5_pending_lifecycle (state : PerJobState) (url url2 : String) (pid : Int)
    (product_type : String) (ps : List String) (rpc : RpcResult)
    (chat_ctx : ChatCtx)
    (gb gv gc : String → Int → Except Unit ProductDetail)
    (fb fv fc : ProductDetail → String → String) :
    (redirect_to_product_page_impl state url pid product_type ps rpc).1.2 = state
    ∧ (redirect_to_product_page_impl state url pid product_type ps rpc).1.1
      = Except.error productTypeAttributeError
    ∧ (redirect_to_product_page_impl state url pid product_type ps rpc).2 = []
    ∧ (redirect_to_website_page_impl state url2 ps rpc).1.2 = state
    ∧ (initiate_product_order_impl chat_ctx state gb gv gc fb fv fc).1.2 = state := by
  refine ⟨rfl, rfl, rfl, ?_, ?_⟩
  · cases ps <;> cases rpc <;> simp [redirect_to_website_page_impl]
  · cases hsp : state.pending_product with
    | none => simp [initiate_product_order_impl, hsp]
    | some p =>
        cases hcv : (!(pyTruthyInt p.product_id) || !(pyTruthyStr p.product_type)) <;>
          simp [initiate_product_order_impl, hsp, hcv]

/-- Counterexample to claim C6 as stated: after two consecutive successful
syncs, the second of which returns a response with every field absent, the
resulting `currency_code` is `"EUR"` and `product_name` is `None` — values
that are present neither in the second response nor among the constructor
defaults (`"USD"`, `"Product Name"`). The wholesale replacement itself is
real (first conjunct), but absent fields take `from_sync_response`'s own
fallbacks, not the constructor's. -/
theorem C6_counterexample :
    (LegacyOrderTask.sync_order_options
        (LegacyOrderTask.sync_order_options none ["user"] (RpcResult.response "r1")
          sampleDecode 1).1
        ["user"] (RpcResult.response "r2") sampleDecode 2).1
      = some (OrderState.from_sync_response sampleSyncEmpty 2)
    ∧ (OrderState.from_sync_response sampleSyncEmpty 2).currency_code = "EUR"
    ∧ sampleSyncEmpty.currency_code = none
    ∧ OrderState.init.currency_code = "USD"
    ∧ (OrderState.from_sync_response sampleSyncEmpty 2).product_name = none
    ∧ OrderState.init.product_name = some "Product Name"
    ∧ ("EUR" : String) ≠ "USD" := by
  refine ⟨rfl, rfl, rfl, rfl, rfl, rfl, by decide⟩

/-- Claim C6 (amended). Sync replaces, never merges: after two consecutive
successful `sync_order_options` calls, the stored `OrderState` equals
`from_sync_response` of the second decoded response alone — no field of
the first sync's state survives (absent fields take `from_sync_response`'s
fixed fallbacks rather than values from the first response or the
constructor). -/
theorem C6_sync_replaces (c0 : Option OrderState) (ps : List String) (r1 r2 : String)
    (decode : String → SyncResponse) (t1 t2 : Nat)
    (hps : ps ≠ []) (_h1 : r1 ≠ "") (h2 : r2 ≠ "") :
    (LegacyOrderTask.sync_order_options
        (LegacyOrderTask.sync_order_options c0 ps (RpcResult.response r1) decode t1).1
        ps (RpcResult.response r2) decode t2).1
      = some (OrderState.from_sync_response (decode r2) t2) := by
  cases ps with
  | nil => exact absurd rfl hps
  | cons a l => simp [LegacyOrderTask.sync_order_options, h2]

/-- Witness for C6 (amended): two concrete syncs against `sampleDecode`. -/
theorem C6_sync_replaces_witness :
    (LegacyOrderTask.sync_order_options
        (LegacyOrderTask.sync_order_options (some OrderState.init) ["user"]
          (RpcResult.response "r1") sampleDecode 1).1
        ["user"] (RpcResult.response "r2") sampleDecode 2).1
      = some (OrderState.from_sync_response (sampleDecode "r2") 2) :=
  C6_sync_replaces (some OrderState.init) ["user"] "r1" "r2" sampleDecode 1 2
    (by decide) (by decide) (by decide)

/-- Claim C2: the claim matches the intended routing, but the code never
performs it. `ProductType` is the `typing.Literal` alias, so after the
pending gates pass, line 142 calls `ProductType(product_type_str)` on the
alias and raises `TypeError`, which the surrounding `except ValueError`
does not catch. No detail fetch, no formatting and no Order Task
construction ever occur, for any pending product type. Evaluation at a
pending variant product (the same happens for basic and customizable): -/
theorem C2_begin_order_bug :
    (initiate_product_order_impl [] (sampleState (some samplePendingVariant)) sampleFetch
        sampleFetch sampleFetch sampleFmtB sampleFmtV sampleFmtC).1.1
      = Except.error productTypeCallError
    ∧ (initiate_product_order_impl [] (sampleState (some samplePendingVariant)) sampleFetch
        sampleFetch sampleFetch sampleFmtB sampleFmtV sampleFmtC).2 = [] := ⟨rfl, rfl⟩

/-- Claim C8: settled against the faithful crash semantics. The only
handoff this program can complete is `exit_ordering_task_impl`, and it
constructs the new Assistant with the identical dialogue-history reference
it was given (first conjunct). The beginOrder handoff never completes —
`initiate_product_order_impl` never returns a role (the line-142
`TypeError`; second conjunct) — and the completeOrder handoff never
completes either (the C4 `Assistant(chat_ctx)` crash; third conjunct), so
for those two transitions the claimed continuity is about transitions that
do not occur. -/
theorem C8_history_continuity (chat_ctx : ChatCtx) (state : PerJobState)
    (gb gv gc : String → Int → Except Unit ProductDetail)
    (fb fv fc : ProductDetail → String → String)
    (pn reason : String) (ps : List String) (rpc : RpcResult) :
    (exit_ordering_task_impl chat_ctx pn reason state).1
      = some { chat_ctx := chat_ctx, state := state }
    ∧ (∀ res, (initiate_product_order_impl chat_ctx state gb gv gc fb fv fc).1.1
        ≠ Except.ok res)
    ∧ (∀ a msg, (complete_order_impl chat_ctx pn ps rpc).1 ≠ Except.ok (a, msg)) := by
  refine ⟨rfl, ?_, ?_⟩
  · intro res h
    cases hsp : state.pending_product with
    | none => simp [initiate_product_order_impl, hsp] at h
    | some p =>
        cases hcv : (!(pyTruthyInt p.product_id) || !(pyTruthyStr p.product_type)) with
        | true => simp [initiate_product_order_impl, hsp, hcv] at h
        | false => simp [initiate_product_order_impl, hsp, hcv] at h
  · intro a msg h
    cases ps with
    | nil => simp [complete_order_impl] at h
    | cons x l =>
        cases rpc with
        | failed => simp [complete_order_impl] at h
        | response s =>
            by_cases hs : s = "" <;>
              simp [complete_order_impl, Assistant.make, hs] at h

/-- Counterexample to claim C8 as stated: the claim includes the beginOrder
transition among the handoffs whose newly constructed role receives the old
dialogue history. At a concrete beginOrder invocation with a complete
pending record, no role is ever constructed: the call returns the line-142
`TypeError` and performs no fetch, so there is no new role to receive the
history and the beginOrder transition of the claim does not exist in this
program. -/
theorem C8_counterexample :
    (initiate_product_order_impl [] (sampleState (some samplePendingBasic)) sampleFetch
        sampleFetch sampleFetch sampleFmtB sampleFmtV sampleFmtC).1.1
      = Except.error productTypeCallError
    ∧ (initiate_product_order_impl [] (sampleState (some samplePendingBasic)) sampleFetch
        sampleFetch sampleFetch sampleFmtB sampleFmtV sampleFmtC).2 = [] := ⟨rfl, rfl⟩

/-- Witness for C8: the exit handoff on a sample session carries the
(empty) history it was given, and the beginOrder call at a concrete
complete pending record is not a success. -/
theorem C8_history_continuity_witness :
    (exit_ordering_task_impl [] "Burger" "changed mind"
        (sampleState (some samplePendingBasic))).1
      = some { chat_ctx := [], state := sampleState (some samplePendingBasic) }
    ∧ (initiate_product_order_impl [] (sampleState (some samplePendingBasic)) sampleFetch
        sampleFetch sampleFetch sampleFmtB sampleFmtV sampleFmtC).1.1
      ≠ Except.ok
          ⟨OrderRole.basicOrder
              ⟨"Burger", "details", [], "basic", "shop", "a demo shop", "en",
                sampleState (some samplePendingBasic)⟩,
            "Burger", "msg"⟩ := by
  have h := C8_history_continuity [] (sampleState (some samplePendingBasic)) sampleFetch
    sampleFetch sampleFetch sampleFmtB sampleFmtV sampleFmtC "Burger" "changed mind"
    ["user"] (RpcResult.response "ok")
  exact ⟨h.1, h.2.1 _⟩

end SuperVersion
